import Mathlib

/-!
Shallow embedding of the alarm scheduling core of `alarm_clock.py`
(class `AlarmClockApp`): the alarm records, the periodic tick evaluation
`check_alarms`, the firing path `trigger_alarm` / `control_light` /
`play_alarm_sound`, the alert-session resolution `snooze_alarm` /
`dismiss_alarm`, the creation path `save_alarm`, and the persistence pair
`save_alarms` / `load_alarms`.

Modelling conventions:
* An absolute instant is a `Nat` counting seconds; `datetime.now().time()`
  is modelled by the derived hour-of-day and minute-of-day (`hourOf`,
  `minuteOf`), which is all `check_alarms` reads.  Adding a timedelta is
  `Nat` addition, wrapping over midnight exactly as wall-clock time does.
* A Python alarm dict is the structure `Alarm`.  The optional keys
  `triggered_today` and `is_snooze`, read with `.get(key, False)`, are
  `Bool` fields whose absence is the value `false`.  Each alarm's `time`
  stores only hour and minute: no code path reads any finer component of
  an alarm's stored time (comparisons, serialization and display all use
  hour/minute).
* `self.active_alarm` aliases a dict inside `self.alarms`; the alias is
  modelled as the index of that element (`Option Nat`).  The case of a
  ringing alarm deleted from the list mid-session is not modelled.
* Collaborator outcomes (the Tuya light API, pygame sound) are an
  explicit environment `Env`; every outcome the Python code catches is a
  constructor, and the embedded functions are total because the source
  swallows those exceptions at the point of use.
* Side effects are collected in a `List Effect`; durable persistence
  (`save_alarms` writing through `save_config`) is the `saved` component
  of `AppState`.
-/

/-- Hour-of-day of an absolute time in seconds, as `datetime.time().hour`. -/
def hourOf (t : Nat) : Nat := t / 3600 % 24

/-- Minute-of-hour of an absolute time in seconds, as `datetime.time().minute`. -/
def minuteOf (t : Nat) : Nat := t / 60 % 60

/-- An alarm record: the dict built by `save_alarm` / `snooze_alarm`.
`timeHour`/`timeMinute` are the `datetime.time` stored under `'time'`;
`triggered_today` and `is_snooze` model `.get('triggered_today', False)`
and `.get('is_snooze', False)` on dicts that may lack those keys. -/
structure Alarm where
  timeHour : Nat
  timeMinute : Nat
  repeats : Bool
  light_control : Bool
  active : Bool
  triggered_today : Bool
  is_snooze : Bool
deriving DecidableEq, Repr

/-- Serialized alarm record as written by `save_alarms` into the JSON
config: `time` rendered as a `"HH:MM"` string, the other keys copied. -/
structure SavedRecord where
  time : String
  repeats : Bool
  light_control : Bool
  active : Bool
  triggered_today : Bool
  is_snooze : Bool
deriving DecidableEq, Repr

/-- Outcome of one call into the Tuya light API, covering every branch of
`control_light`: API object missing, device id missing, successful post,
post answered with `success: False`, or a raised exception (caught). -/
inductive LightOutcome
  | ok
  | failResponse
  | raised
  | noApi
  | noDevice
deriving DecidableEq, Repr

/-- Collaborator environment for one firing: how the light call and the
pygame sound call behave. -/
structure Env where
  light : LightOutcome
  soundOk : Bool
deriving DecidableEq, Repr

/-- Observable side effects of the embedded functions. -/
inductive Effect
  | stopMusic
  | playMusic
  | bellFallback
  | lightCommand (turnOn : Bool)
  | errorBox
  | showAlert
  | persist
deriving DecidableEq, Repr

/-- Result of a UI callback: normal return, or the `AttributeError` raised
when `self.active_alarm` is `None` and `.get` is called on it. -/
inductive CallResult
  | ok
  | attributeError
deriving DecidableEq, Repr

/-- The mutable application state the alarm core touches: the in-memory
alarm list `self.alarms`, the ringing-session alias `self.active_alarm`
(as an index), and the durably saved copy of the alarm set. -/
structure AppState where
  alarms : List Alarm
  active_alarm : Option Nat
  saved : List SavedRecord
deriving DecidableEq, Repr

/-- `self.snooze_time = 5  # minutes`. -/
def snooze_time : Nat := 5

/-- Zero-pad a number to two digits, as `strftime` does for `%H`/`%M`. -/
def pad2 (n : Nat) : String := if n < 10 then "0" ++ toString n else toString n

/-- `alarm['time'].strftime("%H:%M")`. -/
def formatHM (h m : Nat) : String := pad2 h ++ ":" ++ pad2 m

/-- Value of a decimal digit character. -/
def digitVal (c : Char) : Option Nat :=
  if c.isDigit then some (c.toNat - 48) else none

/-- Core of `datetime.strptime(s, "%H:%M")`: one or two digits for the
hour, a colon, one or two digits for the minute, nothing else; hour in
0..23 and minute in 0..59, otherwise the parse raises (modelled `none`). -/
def parse_hm_digits : List Char → Option (Nat × Nat)
  | [h1, h2, ':', m1, m2] => do
      let a ← digitVal h1
      let b ← digitVal h2
      let c ← digitVal m1
      let d ← digitVal m2
      if 10 * a + b < 24 ∧ 10 * c + d < 60 then some (10 * a + b, 10 * c + d) else none
  | [h1, ':', m1, m2] => do
      let a ← digitVal h1
      let c ← digitVal m1
      let d ← digitVal m2
      if 10 * c + d < 60 then some (a, 10 * c + d) else none
  | [h1, h2, ':', m1] => do
      let a ← digitVal h1
      let b ← digitVal h2
      let c ← digitVal m1
      if 10 * a + b < 24 then some (10 * a + b, c) else none
  | [h1, ':', m1] => do
      let a ← digitVal h1
      let c ← digitVal m1
      some (a, c)
  | _ => none

/-- `datetime.datetime.strptime(s, "%H:%M").time()`, `none` on failure. -/
def parseHM (s : String) : Option (Nat × Nat) := parse_hm_digits s.toList

/-- Serialization of one alarm inside `save_alarms`: `alarm.copy()` with
`'time'` replaced by its `"%H:%M"` rendering. -/
def serialize_alarm (a : Alarm) : SavedRecord :=
  ⟨formatHM a.timeHour a.timeMinute, a.repeats, a.light_control, a.active,
    a.triggered_today, a.is_snooze⟩

/-- `save_alarms`: serialize every alarm and write the list through to the
config file. -/
def save_alarms (l : List Alarm) : List SavedRecord := l.map serialize_alarm

/-- `load_alarms`: parse each record's time string back; a record whose
time fails to parse is skipped (`except: continue`), the rest of its keys
are carried over unchanged. -/
def load_alarms (recs : List SavedRecord) : List Alarm :=
  recs.filterMap fun r =>
    (parseHM r.time).map fun hm =>
      ⟨hm.1, hm.2, r.repeats, r.light_control, r.active, r.triggered_today, r.is_snooze⟩

/-- The firing test of `check_alarms` for one alarm at time `now`:
active, hour and minute both match, and not a one-shot that already
triggered today. -/
def fires (now : Nat) (a : Alarm) : Bool :=
  a.active && (hourOf now == a.timeHour) && (minuteOf now == a.timeMinute)
    && !(!a.repeats && a.triggered_today)

/-- The state change `check_alarms` applies to one alarm: a firing
one-shot gets `triggered_today = True`; every other alarm is untouched. -/
def check_alarm_update (now : Nat) (a : Alarm) : Alarm :=
  if fires now a && !a.repeats then { a with triggered_today := true } else a

/-- The alarm-list component of one `check_alarms` pass.  The Python loop
mutates each dict in place and touches no other element, so the pass is a
pointwise map. -/
def tick_state (now : Nat) (alarms : List Alarm) : List Alarm :=
  alarms.map (check_alarm_update now)

/-- Whether the alarm at position `i` fires at time `now`. -/
def fires_at (now : Nat) (alarms : List Alarm) (i : Nat) : Bool :=
  match alarms[i]? with
  | some a => fires now a
  | none => false

/-- Number of times the alarm at position `i` fires over a sequence of
ticks at the given instants, each tick applying its state update before
the next runs. -/
def fire_count : List Nat → List Alarm → Nat → Nat
  | [], _, _ => 0
  | t :: ts, alarms, i =>
      (if fires_at t alarms i then 1 else 0) + fire_count ts (tick_state t alarms) i

/-- `control_light(on)`: if the API object or device id is missing, only
an error box is shown; otherwise the command is posted and a non-success
response or a raised exception adds an error box.  Every branch returns
normally: the `try/except` swallows the failure at the point of use. -/
def control_light (o : LightOutcome) (turnOn : Bool) : List Effect :=
  match o with
  | LightOutcome.noApi => [Effect.errorBox]
  | LightOutcome.noDevice => [Effect.errorBox]
  | LightOutcome.ok => [Effect.lightCommand turnOn]
  | LightOutcome.failResponse => [Effect.lightCommand turnOn, Effect.errorBox]
  | LightOutcome.raised => [Effect.lightCommand turnOn, Effect.errorBox]

/-- `play_alarm_sound`: stop, load and loop the sound; on any exception
fall back to the system bell (`except` around the pygame calls). -/
def play_alarm_sound (soundOk : Bool) : List Effect :=
  if soundOk then [Effect.stopMusic, Effect.playMusic]
  else [Effect.stopMusic, Effect.bellFallback]

/-- `trigger_alarm(alarm)` side effects: light on when `light_control`,
then the alarm sound, then the alert screen.  The alert screen is shown
unconditionally, whatever the collaborators did. -/
def trigger_alarm (env : Env) (a : Alarm) : List Effect :=
  (if a.light_control then control_light env.light true else [])
    ++ play_alarm_sound env.soundOk ++ [Effect.showAlert]

/-- Index of the last alarm `check_alarms` triggers at `now` (the Python
loop overwrites `self.active_alarm` on each trigger, so the last one
stands). -/
def last_fired_index (now : Nat) (alarms : List Alarm) : Option Nat :=
  ((alarms.enum.filter fun p => fires now p.2).getLast?).map Prod.fst

/-- One full `check_alarms` pass at time `now`: every alarm is tested
with `fires`; each firing alarm runs `trigger_alarm` and, when one-shot,
is marked `triggered_today` and the whole set is saved (`persist`).  The
saved copy equals the serialization of the updated list: the last
in-loop `save_alarms` runs at the last one-shot firing, when every
marking so far is already in the list and no later element is ever
marked without its own save. -/
def check_alarms (env : Env) (now : Nat) (st : AppState) : AppState × List Effect :=
  let alarms1 := tick_state now st.alarms
  let effs := st.alarms.flatMap fun a =>
    if fires now a then
      trigger_alarm env a ++ (if !a.repeats then [Effect.persist] else [])
    else []
  let oneshotFired := st.alarms.any fun a => fires now a && !a.repeats
  let active1 := (last_fired_index now st.alarms).orElse fun _ => st.active_alarm
  (⟨alarms1, active1, if oneshotFired then save_alarms alarms1 else st.saved⟩, effs)

/-- The alarm dict `snooze_alarm` appends: time = (now + snooze_time
minutes), one-shot, active, `is_snooze`, light control copied from the
ringing alarm; no `triggered_today` key (so the field is `false`). -/
def snooze_alarm_record (a : Alarm) (now : Nat) : Alarm :=
  ⟨hourOf (now + snooze_time * 60), minuteOf (now + snooze_time * 60),
    false, a.light_control, true, false, true⟩

/-- `snooze_alarm()`: stop the sound, append a fresh one-shot snooze
alarm for now + `snooze_time` minutes, save, close the session.  With no
active session, `self.active_alarm.get('light_control', ...)` raises
`AttributeError` after the sound was already stopped; nothing is
appended or saved. -/
def snooze_alarm (now : Nat) (st : AppState) : AppState × List Effect × CallResult :=
  match st.active_alarm with
  | none => (st, [Effect.stopMusic], CallResult.attributeError)
  | some i =>
    match st.alarms[i]? with
    | none => ({ st with active_alarm := none }, [Effect.stopMusic], CallResult.ok)
    | some a =>
      let alarms1 := st.alarms ++ [snooze_alarm_record a now]
      (⟨alarms1, none, save_alarms alarms1⟩,
        [Effect.stopMusic, Effect.persist], CallResult.ok)

/-- `dismiss_alarm()`: stop the sound; when the ringing alarm has
`light_control`, call `control_light(False)`; when it is one-shot and
not a snooze helper, set `active = False` and save; close the session.
With no active session, `self.active_alarm.get(...)` raises
`AttributeError` after the sound was already stopped; the store and the
light are untouched. -/
def dismiss_alarm (env : Env) (st : AppState) : AppState × List Effect × CallResult :=
  match st.active_alarm with
  | none => (st, [Effect.stopMusic], CallResult.attributeError)
  | some i =>
    match st.alarms[i]? with
    | none => ({ st with active_alarm := none }, [Effect.stopMusic], CallResult.ok)
    | some a =>
      let lightE := if a.light_control then control_light env.light false else []
      if !a.repeats && !a.is_snooze then
        let alarms1 := st.alarms.set i { a with active := false }
        (⟨alarms1, none, save_alarms alarms1⟩,
          Effect.stopMusic :: lightE ++ [Effect.persist], CallResult.ok)
      else
        ({ st with active_alarm := none }, Effect.stopMusic :: lightE, CallResult.ok)

/-- AM/PM selector of the alarm setup screen. -/
inductive AmPm
  | am
  | pm
deriving DecidableEq, Repr

/-- `save_alarm()`: read the hour and minute entries (`none` models a
string `int()` rejects), convert 12-hour to 24-hour, build
`datetime.time(hour, minute)` — which raises unless 0 ≤ hour ≤ 23 and
0 ≤ minute ≤ 59 — then append the new alarm with `active: True` and
save.  Any exception lands in the `except` arm: an error box, and the
state is untouched. -/
def save_alarm (hourEntry minuteEntry : Option Int) (ampm : AmPm)
    (rep lightCtl : Bool) (st : AppState) : AppState × List Effect × CallResult :=
  match hourEntry, minuteEntry with
  | some h0, some m0 =>
    let hour := if ampm = AmPm.pm ∧ h0 ≠ 12 then h0 + 12
      else if ampm = AmPm.am ∧ h0 = 12 then 0 else h0
    if 0 ≤ hour ∧ hour ≤ 23 ∧ 0 ≤ m0 ∧ m0 ≤ 59 then
      let a : Alarm := ⟨hour.toNat, m0.toNat, rep, lightCtl, true, false, false⟩
      let alarms1 := st.alarms ++ [a]
      (⟨alarms1, st.active_alarm, save_alarms alarms1⟩,
        [Effect.persist], CallResult.ok)
    else (st, [Effect.errorBox], CallResult.ok)
  | _, _ => (st, [Effect.errorBox], CallResult.ok)

/-! ## Helper lemmas -/

theorem fires_at_eq {now : Nat} {alarms : List Alarm} {i : Nat} {a : Alarm}
    (ha : alarms[i]? = some a) : fires_at now alarms i = fires now a := by
  unfold fires_at
  rw [ha]

theorem tick_state_getElem (now : Nat) (alarms : List Alarm) (i : Nat) :
    (tick_state now alarms)[i]? = (alarms[i]?).map (check_alarm_update now) := by
  simp [tick_state]

theorem check_alarm_update_of_not_fires {now : Nat} {a : Alarm}
    (h : fires now a = false) : check_alarm_update now a = a := by
  simp [check_alarm_update, h]

theorem check_alarm_update_of_fires_oneshot {now : Nat} {a : Alarm}
    (h : fires now a = true) (hr : a.repeats = false) :
    check_alarm_update now a = { a with triggered_today := true } := by
  simp [check_alarm_update, h, hr]

/-- An alarm that is a one-shot already marked as triggered, or that is
inactive, is dead: `check_alarms` never fires it. -/
def Dead (a : Alarm) : Prop :=
  (a.repeats = false ∧ a.triggered_today = true) ∨ a.active = false

theorem fires_false_of_dead {now : Nat} {a : Alarm} (h : Dead a) :
    fires now a = false := by
  rcases h with ⟨h1, h2⟩ | h3
  · simp [fires, h1, h2]
  · simp [fires, h3]

theorem fire_count_zero_of_dead :
    ∀ (ts : List Nat) (alarms : List Alarm) (i : Nat) (a : Alarm),
      alarms[i]? = some a → Dead a → fire_count ts alarms i = 0
  | [], _, _, _, _, _ => rfl
  | t :: ts, alarms, i, a, ha, hd => by
    have hf : fires t a = false := fires_false_of_dead hd
    have ha2 : (tick_state t alarms)[i]? = some a := by
      rw [tick_state_getElem, ha]
      simp [check_alarm_update_of_not_fires hf]
    unfold fire_count
    rw [fires_at_eq ha, hf, if_neg (by simp)]
    rw [fire_count_zero_of_dead ts _ i a ha2 hd]

theorem fire_count_le_one_of_oneshot :
    ∀ (ts : List Nat) (alarms : List Alarm) (i : Nat) (a : Alarm),
      alarms[i]? = some a → a.repeats = false → fire_count ts alarms i ≤ 1
  | [], _, _, _, _, _ => Nat.zero_le 1
  | t :: ts, alarms, i, a, ha, hr => by
    unfold fire_count
    rw [fires_at_eq ha]
    cases hf : fires t a with
    | false =>
      have ha2 : (tick_state t alarms)[i]? = some a := by
        rw [tick_state_getElem, ha]
        simp [check_alarm_update_of_not_fires hf]
      simpa using fire_count_le_one_of_oneshot ts _ i a ha2 hr
    | true =>
      have ha2 : (tick_state t alarms)[i]? = some { a with triggered_today := true } := by
        rw [tick_state_getElem, ha]
        simp [check_alarm_update_of_fires_oneshot hf hr]
      have hz : fire_count ts (tick_state t alarms) i = 0 :=
        fire_count_zero_of_dead ts _ i _ ha2 (Or.inl ⟨hr, rfl⟩)
      simp [hz]

/-- The `"%H:%M"` rendering of any in-range hour/minute pair parses back
to the same pair under the `strptime` model. -/
theorem parseHM_formatHM : ∀ h, h < 24 → ∀ m, m < 60 →
    parseHM (formatHM h m) = some (h, m) := by decide

/-! ## Claim theorems -/

/-- C1 (counterexample): an enabled repeating alarm set for 07:00 fires at
both ticks 07:00:00 and 07:00:30 — two firings for the same minute-of-day
occurrence, contradicting "fires exactly once and never twice ... this
holds for repeating alarms as well". -/
theorem c1_counterexample :
    (Alarm.mk 7 0 true false true false false).active = true ∧
    (Alarm.mk 7 0 true false true false false).repeats = true ∧
    hourOf 25200 = 7 ∧ minuteOf 25200 = 0 ∧
    hourOf 25230 = 7 ∧ minuteOf 25230 = 0 ∧ 25230 - 25200 < 60 ∧
    fire_count [25200, 25230] [Alarm.mk 7 0 true false true false false] 0 = 2 := by
  decide

/-- C1 (amended): for a one-shot (`repeat = False`) alarm the property
holds — over any sequence of ticks, however many fall inside the matching
minute, the alarm fires at most once, because the firing tick sets
`triggered_today`.  A repeating alarm instead fires at every tick of the
matching minute (see the counterexample). -/
theorem c1_oneshot_fires_at_most_once (ts : List Nat) (alarms : List Alarm)
    (i : Nat) (a : Alarm) (ha : alarms[i]? = some a) (hr : a.repeats = false) :
    fire_count ts alarms i ≤ 1 :=
  fire_count_le_one_of_oneshot ts alarms i a ha hr

/-- C1 witness: a one-shot 07:00 alarm over the ticks 07:00:00 and
07:00:30 fires at most once. -/
theorem c1_witness :
    [Alarm.mk 7 0 false false true false false][0]? =
      some (Alarm.mk 7 0 false false true false false) ∧
    (Alarm.mk 7 0 false false true false false).repeats = false ∧
    fire_count [25200, 25230] [Alarm.mk 7 0 false false true false false] 0 ≤ 1 :=
  ⟨by decide, by decide,
    c1_oneshot_fires_at_most_once [25200, 25230] _ 0
      (Alarm.mk 7 0 false false true false false) (by decide) (by decide)⟩

/-- C2: the tick that observes 00:00 does not clear `triggered_today` —
no reset logic exists anywhere in `check_alarms` (or elsewhere): a full
`check_alarms` pass at midnight leaves an alarm with
`triggered_today = True` completely unchanged, against the specified
midnight reset. -/
theorem c2_midnight_tick_does_not_clear_triggered_today :
    hourOf 0 = 0 ∧ minuteOf 0 = 0 ∧
    (Alarm.mk 7 0 false false true true false).triggered_today = true ∧
    (check_alarms (Env.mk LightOutcome.ok true) 0
        (AppState.mk [Alarm.mk 7 0 false false true true false] none
          (save_alarms [Alarm.mk 7 0 false false true true false]))).1 =
      AppState.mk [Alarm.mk 7 0 false false true true false] none
        (save_alarms [Alarm.mk 7 0 false false true true false]) := by
  decide

/-- C3 (counterexample): dismissing a ringing one-shot snooze-helper
alarm (`repeat = False`, `is_snooze = True`) leaves `active = True`: the
code deactivates only when `not repeat and not is_snooze`, so "sets
enabled to false if and only if the alarm is non-repeating" fails. -/
theorem c3_counterexample :
    (Alarm.mk 7 0 false false true true true).repeats = false ∧
    (dismiss_alarm (Env.mk LightOutcome.ok true)
        (AppState.mk [Alarm.mk 7 0 false false true true true] (some 0)
          (save_alarms [Alarm.mk 7 0 false false true true true]))).2.2 =
      CallResult.ok ∧
    ((dismiss_alarm (Env.mk LightOutcome.ok true)
        (AppState.mk [Alarm.mk 7 0 false false true true true] (some 0)
          (save_alarms [Alarm.mk 7 0 false false true true true]))).1.alarms[0]?).map
        Alarm.active = some true := by
  decide

/-- C3 (amended): dismiss sets `active = False` iff the ringing alarm is
non-repeating AND not a snooze helper (`is_snooze = False`); a dismissed
non-repeating non-snooze alarm never fires at any later tick, and a
dismissed repeating alarm is left unchanged and fires at any later tick
whose hour and minute match its time (in particular the next day's). -/
theorem c3_dismiss_semantics (env : Env) (st : AppState) (i : Nat) (a : Alarm)
    (hs : st.active_alarm = some i) (ha : st.alarms[i]? = some a) :
    ((dismiss_alarm env st).1.active_alarm = none) ∧
    ((dismiss_alarm env st).1.alarms[i]? =
      some (if !a.repeats && !a.is_snooze then { a with active := false } else a)) ∧
    (a.repeats = false → a.is_snooze = false →
      ∀ ts, fire_count ts (dismiss_alarm env st).1.alarms i = 0) ∧
    (a.repeats = true → a.active = true → ∀ t, hourOf t = a.timeHour →
      minuteOf t = a.timeMinute → fires_at t (dismiss_alarm env st).1.alarms i = true) := by
  have hlen : i < st.alarms.length := (List.getElem?_eq_some.mp ha).1
  obtain ⟨alarms, act, sv⟩ := st
  simp only [AppState.active_alarm] at hs
  simp only [AppState.alarms] at ha hlen
  subst hs
  by_cases hc : (!a.repeats && !a.is_snooze) = true
  · obtain ⟨hr, hsn⟩ : a.repeats = false ∧ a.is_snooze = false := by
      simpa using hc
    have hset : (alarms.set i { a with active := false })[i]? =
        some { a with active := false } :=
      List.getElem?_set_eq_of_lt _ hlen
    have halarms : (dismiss_alarm env ⟨alarms, some i, sv⟩).1.alarms =
        alarms.set i { a with active := false } := by
      simp [dismiss_alarm, ha, hc]
    refine ⟨by simp [dismiss_alarm, ha, hc], ?_, ?_, ?_⟩
    · rw [halarms, hset]
      simp [hc]
    · intro _ _ ts
      rw [halarms]
      exact fire_count_zero_of_dead ts _ i _ hset (Or.inr rfl)
    · intro hrep
      rw [hrep] at hr
      exact absurd hr (by simp)
  · have hb : (!a.repeats && !a.is_snooze) = false := by
      simpa using hc
    have halarms : (dismiss_alarm env ⟨alarms, some i, sv⟩).1.alarms = alarms := by
      simp [dismiss_alarm, ha, hb]
    refine ⟨by simp [dismiss_alarm, ha, hb], ?_, ?_, ?_⟩
    · rw [halarms, ha]
      simp [hb]
    · intro hr hsn
      rw [hr, hsn] at hb
      exact absurd hb (by simp)
    · intro hrep hact t h1 h2
      rw [halarms, fires_at_eq ha]
      simp [fires, hrep, hact, h1, h2]

/-- C3 witness: a ringing repeating 07:00 alarm is dismissed; the session
closes, the alarm keeps `active = True` and fires again at the next day's
07:00 tick (t = 111600 s = 24 h + 07:00). -/
theorem c3_witness :
    ((dismiss_alarm (Env.mk LightOutcome.ok true)
        (AppState.mk [Alarm.mk 7 0 true false true false false] (some 0)
          (save_alarms [Alarm.mk 7 0 true false true false false]))).1.active_alarm =
      none) ∧
    fires_at 111600 (dismiss_alarm (Env.mk LightOutcome.ok true)
        (AppState.mk [Alarm.mk 7 0 true false true false false] (some 0)
          (save_alarms [Alarm.mk 7 0 true false true false false]))).1.alarms 0 = true :=
  ⟨(c3_dismiss_semantics (Env.mk LightOutcome.ok true)
      (AppState.mk [Alarm.mk 7 0 true false true false false] (some 0)
        (save_alarms [Alarm.mk 7 0 true false true false false])) 0
      (Alarm.mk 7 0 true false true false false) rfl (by decide)).1,
   (c3_dismiss_semantics (Env.mk LightOutcome.ok true)
      (AppState.mk [Alarm.mk 7 0 true false true false false] (some 0)
        (save_alarms [Alarm.mk 7 0 true false true false false])) 0
      (Alarm.mk 7 0 true false true false false) rfl (by decide)).2.2.2
     (by decide) (by decide) 111600 (by decide) (by decide)⟩

/-- C4 (counterexample): a repeating 06:30 alarm ringing at T = 06:30:10
is snoozed; at t = 06:30:40, with T ≤ t < T + 5 min, the alarm fires
again — the code sets no `snoozedUntil` on the ringing alarm, so the
claimed suppression of every tick in `[T, T+N)` fails. -/
theorem c4_counterexample :
    hourOf 23410 = (Alarm.mk 6 30 true false true false false).timeHour ∧
    minuteOf 23410 = (Alarm.mk 6 30 true false true false false).timeMinute ∧
    23410 ≤ 23440 ∧ 23440 < 23410 + snooze_time * 60 ∧
    fires_at 23440
      (snooze_alarm 23410
        (AppState.mk [Alarm.mk 6 30 true false true false false] (some 0)
          (save_alarms [Alarm.mk 6 30 true false true false false]))).1.alarms
      0 = true := by
  decide

/-- C4 (amended): snoozing at time T appends a fresh one-shot snooze
alarm whose time is the hour/minute of T + 5 minutes; that alarm fires at
exactly the ticks whose hour and minute match the snooze expiry (so the
first such tick at or after T + N fires it).  The ringing alarm's own
record is untouched: a one-shot alarm (already `triggered_today` from the
firing) never fires during or after the window, but a repeating alarm
still fires at every remaining tick of the matching minute. -/
theorem c4_snooze_semantics (now : Nat) (st : AppState) (i : Nat) (a : Alarm)
    (hs : st.active_alarm = some i) (ha : st.alarms[i]? = some a) :
    ((snooze_alarm now st).1.alarms = st.alarms ++ [snooze_alarm_record a now]) ∧
    (∀ t, fires t (snooze_alarm_record a now) =
      ((hourOf t == hourOf (now + snooze_time * 60)) &&
        (minuteOf t == minuteOf (now + snooze_time * 60)))) ∧
    (∀ ts, fire_count ts (snooze_alarm now st).1.alarms st.alarms.length ≤ 1) ∧
    (a.repeats = false → a.triggered_today = true →
      ∀ ts, fire_count ts (snooze_alarm now st).1.alarms i = 0) := by
  have hlen : i < st.alarms.length := (List.getElem?_eq_some.mp ha).1
  obtain ⟨alarms, act, sv⟩ := st
  simp only [AppState.active_alarm] at hs
  simp only [AppState.alarms] at ha hlen
  subst hs
  have halarms : (snooze_alarm now ⟨alarms, some i, sv⟩).1.alarms =
      alarms ++ [snooze_alarm_record a now] := by
    simp [snooze_alarm, ha]
  have hnew : (alarms ++ [snooze_alarm_record a now])[alarms.length]? =
      some (snooze_alarm_record a now) := by
    rw [List.getElem?_append_right (Nat.le_refl _)]
    simp
  refine ⟨halarms, ?_, ?_, ?_⟩
  · intro t
    simp [fires, snooze_alarm_record]
  · intro ts
    rw [halarms]
    exact fire_count_le_one_of_oneshot ts _ _ _ hnew rfl
  · intro hr ht ts
    rw [halarms]
    have hold : (alarms ++ [snooze_alarm_record a now])[i]? = some a := by
      rw [List.getElem?_append_left hlen]
      exact ha
    exact fire_count_zero_of_dead ts _ i a hold (Or.inl ⟨hr, ht⟩)

/-- C4 witness: the 06:30 repeating alarm snoozed at 06:30:10 gets a
06:35 one-shot snooze alarm appended, which fires at the 06:35:00 tick
and at most once over the ticks 06:32:00 and 06:35:00. -/
theorem c4_witness :
    ((snooze_alarm 23410
        (AppState.mk [Alarm.mk 6 30 true false true false false] (some 0)
          (save_alarms [Alarm.mk 6 30 true false true false false]))).1.alarms =
      [Alarm.mk 6 30 true false true false false] ++
        [snooze_alarm_record (Alarm.mk 6 30 true false true false false) 23410]) ∧
    fires 23700 (snooze_alarm_record (Alarm.mk 6 30 true false true false false) 23410) =
      ((hourOf 23700 == hourOf (23410 + snooze_time * 60)) &&
        (minuteOf 23700 == minuteOf (23410 + snooze_time * 60))) ∧
    fire_count [23520, 23700]
      (snooze_alarm 23410
        (AppState.mk [Alarm.mk 6 30 true false true false false] (some 0)
          (save_alarms [Alarm.mk 6 30 true false true false false]))).1.alarms 1 ≤ 1 :=
  ⟨(c4_snooze_semantics 23410
      (AppState.mk [Alarm.mk 6 30 true false true false false] (some 0)
        (save_alarms [Alarm.mk 6 30 true false true false false])) 0
      (Alarm.mk 6 30 true false true false false) rfl (by decide)).1,
   (c4_snooze_semantics 23410
      (AppState.mk [Alarm.mk 6 30 true false true false false] (some 0)
        (save_alarms [Alarm.mk 6 30 true false true false false])) 0
      (Alarm.mk 6 30 true false true false false) rfl (by decide)).2.1 23700,
   (c4_snooze_semantics 23410
      (AppState.mk [Alarm.mk 6 30 true false true false false] (some 0)
        (save_alarms [Alarm.mk 6 30 true false true false false])) 0
      (Alarm.mk 6 30 true false true false false) rfl (by decide)).2.2.1 [23520, 23700]⟩

/-- C5: collaborator outcomes are irrelevant to the alarm state: for any
two environments (light call succeeding, failing, raising, or the API
unconfigured; sound playing or raising) a `check_alarms` pass produces
the identical application state; the alert screen opens for every firing
alarm in every environment; and a firing one-shot alarm is marked
`triggered_today` whatever the collaborators did.  Every branch of
`control_light` and `play_alarm_sound` returns normally (the functions
are total over `LightOutcome`/`soundOk`), so no failure propagates out of
the firing path or crashes the tick loop. -/
theorem c5_collaborator_failure_harmless (env env2 : Env) (now : Nat) (st : AppState) :
    ((check_alarms env now st).1 = (check_alarms env2 now st).1) ∧
    (∀ a, a ∈ st.alarms → fires now a = true →
      Effect.showAlert ∈ (check_alarms env now st).2) ∧
    (∀ (i : Nat) (a : Alarm), st.alarms[i]? = some a → fires now a = true →
      a.repeats = false →
      (check_alarms env now st).1.alarms[i]? =
        some { a with triggered_today := true }) := by
  refine ⟨rfl, ?_, ?_⟩
  · intro a hmem hf
    exact List.mem_flatMap.mpr ⟨a, hmem, by simp [hf, trigger_alarm]⟩
  · intro i a ha hf hr
    have he : (check_alarms env now st).1.alarms = tick_state now st.alarms := rfl
    rw [he, tick_state_getElem, ha]
    simp [check_alarm_update_of_fires_oneshot hf hr]

/-- C5 witness: a 07:00 one-shot light-controlled alarm checked at
07:00:00 under a raising light API and a broken sound device yields the
same state as under fully working collaborators, still opens the alert
screen, and is still marked `triggered_today`. -/
theorem c5_witness :
    ((check_alarms (Env.mk LightOutcome.raised false) 25200
        (AppState.mk [Alarm.mk 7 0 false true true false false] none [])).1 =
      (check_alarms (Env.mk LightOutcome.ok true) 25200
        (AppState.mk [Alarm.mk 7 0 false true true false false] none [])).1) ∧
    Effect.showAlert ∈ (check_alarms (Env.mk LightOutcome.raised false) 25200
      (AppState.mk [Alarm.mk 7 0 false true true false false] none [])).2 ∧
    (check_alarms (Env.mk LightOutcome.raised false) 25200
      (AppState.mk [Alarm.mk 7 0 false true true false false] none [])).1.alarms[0]? =
      some (Alarm.mk 7 0 false true true true false) :=
  ⟨(c5_collaborator_failure_harmless (Env.mk LightOutcome.raised false)
      (Env.mk LightOutcome.ok true) 25200
      (AppState.mk [Alarm.mk 7 0 false true true false false] none [])).1,
   (c5_collaborator_failure_harmless (Env.mk LightOutcome.raised false)
      (Env.mk LightOutcome.ok true) 25200
      (AppState.mk [Alarm.mk 7 0 false true true false false] none [])).2.1
     (Alarm.mk 7 0 false true true false false) (by decide) (by decide),
   (c5_collaborator_failure_harmless (Env.mk LightOutcome.raised false)
      (Env.mk LightOutcome.ok true) 25200
      (AppState.mk [Alarm.mk 7 0 false true true false false] none [])).2.2
     0 (Alarm.mk 7 0 false true true false false) (by decide) (by decide) (by decide)⟩

/-- C6: `save_alarm` either surfaces a validation error — any exception
in reading `int(...)` or constructing `datetime.time` lands in the error
box arm — and then the state (in-memory list and persisted copy) is
exactly unchanged, or it succeeds and then exactly one alarm was
appended, with `active = True` and no `triggered_today`, and the full
set was persisted before returning; one of the two always happens. -/
theorem c6_save_alarm_validation (he me : Option Int) (ap : AmPm)
    (r l : Bool) (st : AppState) :
    ((save_alarm he me ap r l st).2.1 = [Effect.errorBox] ∨
      (save_alarm he me ap r l st).2.1 = [Effect.persist]) ∧
    ((save_alarm he me ap r l st).2.1 = [Effect.errorBox] →
      (save_alarm he me ap r l st).1 = st) ∧
    ((save_alarm he me ap r l st).2.1 = [Effect.persist] →
      ∃ a1 : Alarm, (save_alarm he me ap r l st).1.alarms = st.alarms ++ [a1] ∧
        a1.active = true ∧ a1.triggered_today = false ∧
        (save_alarm he me ap r l st).1.saved =
          save_alarms ((save_alarm he me ap r l st).1.alarms) ∧
        (save_alarm he me ap r l st).1.active_alarm = st.active_alarm) := by
  match he, me with
  | none, none => exact ⟨Or.inl rfl, fun _ => rfl, by simp [save_alarm]⟩
  | none, some m0 => exact ⟨Or.inl rfl, fun _ => rfl, by simp [save_alarm]⟩
  | some h0, none => exact ⟨Or.inl rfl, fun _ => rfl, by simp [save_alarm]⟩
  | some h0, some m0 =>
    by_cases hv : (0 ≤ (if ap = AmPm.pm ∧ h0 ≠ 12 then h0 + 12
        else if ap = AmPm.am ∧ h0 = 12 then 0 else h0) ∧
        (if ap = AmPm.pm ∧ h0 ≠ 12 then h0 + 12
          else if ap = AmPm.am ∧ h0 = 12 then 0 else h0) ≤ 23 ∧ 0 ≤ m0 ∧ m0 ≤ 59)
    · refine ⟨Or.inr (by simp [save_alarm, hv]), ?_, ?_⟩
      · intro hcon
        simp [save_alarm, hv] at hcon
      · intro _
        refine ⟨⟨(if ap = AmPm.pm ∧ h0 ≠ 12 then h0 + 12
            else if ap = AmPm.am ∧ h0 = 12 then 0 else h0).toNat, m0.toNat,
            r, l, true, false, false⟩, ?_, rfl, rfl, ?_, ?_⟩
        · simp [save_alarm, hv]
        · simp [save_alarm, hv]
        · simp [save_alarm, hv]
    · refine ⟨Or.inl (by simp [save_alarm, hv]), ?_, ?_⟩
      · intro _
        simp [save_alarm, hv]
      · intro hcon
        simp [save_alarm, hv] at hcon

/-- C6 witness: minute 60 is rejected with the state untouched; hour 7,
minute 30 AM is accepted, appending an active alarm and persisting. -/
theorem c6_witness :
    ((save_alarm (some 7) (some 60) AmPm.am true false
        (AppState.mk [] none [])).1 = AppState.mk [] none []) ∧
    (∃ a1 : Alarm, (save_alarm (some 7) (some 30) AmPm.am true false
          (AppState.mk [] none [])).1.alarms = [] ++ [a1] ∧
        a1.active = true ∧ a1.triggered_today = false ∧
        (save_alarm (some 7) (some 30) AmPm.am true false
          (AppState.mk [] none [])).1.saved =
          save_alarms ((save_alarm (some 7) (some 30) AmPm.am true false
            (AppState.mk [] none [])).1.alarms) ∧
        (save_alarm (some 7) (some 30) AmPm.am true false
          (AppState.mk [] none [])).1.active_alarm = none) :=
  ⟨(c6_save_alarm_validation (some 7) (some 60) AmPm.am true false
      (AppState.mk [] none [])).2.1 (by decide),
   (c6_save_alarm_validation (some 7) (some 30) AmPm.am true false
      (AppState.mk [] none [])).2.2 (by decide)⟩

/-- C7 (counterexample): with the session already resolved
(`active_alarm = None`), a further dismiss call does not fail with a
`SessionClosed` error and does perform a sound side effect: it first
stops the mixer, then raises `AttributeError` on
`self.active_alarm.get`, so "rejected and performs no side effect on the
alarm store, sound, or light" fails on the sound component. -/
theorem c7_counterexample :
    (dismiss_alarm (Env.mk LightOutcome.ok true)
        (AppState.mk [Alarm.mk 7 0 true false true false false] none [])).2.2 =
      CallResult.attributeError ∧
    (dismiss_alarm (Env.mk LightOutcome.ok true)
        (AppState.mk [Alarm.mk 7 0 true false true false false] none [])).2.1 =
      [Effect.stopMusic] ∧
    [Effect.stopMusic] ≠ ([] : List Effect) := by
  decide

/-- C7 (amended): both resolutions clear the session, and any further
snooze or dismiss call on the cleared session raises `AttributeError`
(there is no `SessionClosed` error in the code), leaves the alarm store
and the persisted set exactly unchanged, and issues no light command —
its only side effect is stopping the already-stopped sound. -/
theorem c7_second_resolution_rejected (env : Env) (now : Nat) (st : AppState)
    (h : st.active_alarm = none) :
    ((dismiss_alarm env st).1 = st ∧
      (dismiss_alarm env st).2.1 = [Effect.stopMusic] ∧
      (dismiss_alarm env st).2.2 = CallResult.attributeError) ∧
    ((snooze_alarm now st).1 = st ∧
      (snooze_alarm now st).2.1 = [Effect.stopMusic] ∧
      (snooze_alarm now st).2.2 = CallResult.attributeError) ∧
    (∀ (st2 : AppState) (i : Nat), st2.active_alarm = some i →
      (dismiss_alarm env st2).1.active_alarm = none ∧
      (snooze_alarm now st2).1.active_alarm = none) := by
  obtain ⟨alarms, act, sv⟩ := st
  simp only [AppState.active_alarm] at h
  subst h
  refine ⟨⟨rfl, rfl, rfl⟩, ⟨rfl, rfl, rfl⟩, ?_⟩
  intro st2 i h2
  obtain ⟨alarms2, act2, sv2⟩ := st2
  simp only [AppState.active_alarm] at h2
  subst h2
  constructor
  · unfold dismiss_alarm
    cases hg : alarms2[i]? with
    | none => simp [hg]
    | some a =>
      simp only [hg]
      by_cases hc : (!a.repeats && !a.is_snooze) = true
      · simp [hc]
      · simp [hc]
  · unfold snooze_alarm
    cases hg : alarms2[i]? with
    | none => simp [hg]
    | some a => simp [hg]

/-- C7 witness: after dismissing a ringing alarm the session is cleared,
and a dismiss on a session-less state leaves it unchanged with an
`AttributeError`. -/
theorem c7_witness :
    ((dismiss_alarm (Env.mk LightOutcome.ok true)
        (AppState.mk [Alarm.mk 7 0 true false true false false] none [])).1 =
      AppState.mk [Alarm.mk 7 0 true false true false false] none []) ∧
    ((dismiss_alarm (Env.mk LightOutcome.ok true)
        (AppState.mk [Alarm.mk 7 0 true false true false false] (some 0)
          [])).1.active_alarm = none) :=
  ⟨((c7_second_resolution_rejected (Env.mk LightOutcome.ok true) 0
      (AppState.mk [Alarm.mk 7 0 true false true false false] none []) rfl).1).1,
   ((c7_second_resolution_rejected (Env.mk LightOutcome.ok true) 0
      (AppState.mk [Alarm.mk 7 0 true false true false false] none []) rfl).2.2
     (AppState.mk [Alarm.mk 7 0 true false true false false] (some 0) []) 0 rfl).1⟩

/-- C8: for any alarm list whose times are in range (as every alarm the
app constructs is), `save_alarms` followed by `load_alarms` restores the
exact list: each record's time survives the `"HH:MM"` serialization and
parse, and `repeat`, `light_control`, `active`, `triggered_today` and
`is_snooze` are all retained; the mutating operations write the
serialized set through before returning (their `saved` component equals
`save_alarms` of the new list, proved in the per-operation theorems). -/
theorem c8_save_load_roundtrip (l : List Alarm)
    (h : ∀ a ∈ l, a.timeHour < 24 ∧ a.timeMinute < 60) :
    load_alarms (save_alarms l) = l := by
  induction l with
  | nil => rfl
  | cons a t ih =>
    have ha := h a (List.mem_cons_self a t)
    have ht : ∀ x ∈ t, x.timeHour < 24 ∧ x.timeMinute < 60 :=
      fun x hx => h x (List.mem_cons_of_mem a hx)
    have hp : parseHM (formatHM a.timeHour a.timeMinute) =
        some (a.timeHour, a.timeMinute) :=
      parseHM_formatHM a.timeHour ha.1 a.timeMinute ha.2
    have hhead : load_alarms (save_alarms (a :: t)) =
        a :: load_alarms (save_alarms t) := by
      simp [save_alarms, load_alarms, List.filterMap_cons, serialize_alarm, hp]
    rw [hhead, ih ht]

/-- C8 witness: a two-alarm list (a repeating 06:30 light alarm and a
triggered one-shot 23:05 snooze helper) round-trips unchanged. -/
theorem c8_witness :
    load_alarms (save_alarms
      [Alarm.mk 6 30 true true true false false,
        Alarm.mk 23 5 false false true true true]) =
      [Alarm.mk 6 30 true true true false false,
        Alarm.mk 23 5 false false true true true] :=
  c8_save_load_roundtrip
    [Alarm.mk 6 30 true true true false false,
      Alarm.mk 23 5 false false true true true] (by decide)

/-- C9: whenever the ringing alarm has `light_control = True`, dismiss
stops the sound and then calls `control_light(False)` unconditionally —
the call list is the same for every environment, in particular whatever
the light-on call at firing did (the code never records whether it
succeeded). -/
theorem c9_dismiss_light_off (env : Env) (st : AppState) (i : Nat) (a : Alarm)
    (hs : st.active_alarm = some i) (ha : st.alarms[i]? = some a)
    (hl : a.light_control = true) :
    (dismiss_alarm env st).2.1 =
      Effect.stopMusic :: control_light env.light false ++
        (if !a.repeats && !a.is_snooze then [Effect.persist] else []) := by
  obtain ⟨alarms, act, sv⟩ := st
  simp only [AppState.active_alarm] at hs
  simp only [AppState.alarms] at ha
  subst hs
  by_cases hc : (!a.repeats && !a.is_snooze) = true
  · simp [dismiss_alarm, ha, hc, hl]
  · have hb : (!a.repeats && !a.is_snooze) = false := by simpa using hc
    simp [dismiss_alarm, ha, hb, hl]

/-- C9 witness: dismissing a ringing repeating light-controlled alarm
under a raising light API still issues the light-off call. -/
theorem c9_witness :
    (dismiss_alarm (Env.mk LightOutcome.raised true)
        (AppState.mk [Alarm.mk 7 0 true true true false false] (some 0) [])).2.1 =
      Effect.stopMusic :: control_light LightOutcome.raised false ++
        (if !(Alarm.mk 7 0 true true true false false).repeats &&
            !(Alarm.mk 7 0 true true true false false).is_snooze
          then [Effect.persist] else []) :=
  c9_dismiss_light_off (Env.mk LightOutcome.raised true)
    (AppState.mk [Alarm.mk 7 0 true true true false false] (some 0) []) 0
    (Alarm.mk 7 0 true true true false false) rfl (by decide) (by decide)

/-- C10: snooze only appends: the new state's list is the old list plus
one fresh record, so every pre-existing alarm — the ringing one included
— is byte-for-byte unchanged at its position; the appended record is a
one-shot (`repeat = False`), active, `is_snooze` alarm with the ringing
alarm's `light_control` and time equal to now + 5 minutes, and the whole
new set is persisted before the call returns. -/
theorem c10_snooze_appends_only (now : Nat) (st : AppState) (i : Nat) (a : Alarm)
    (hs : st.active_alarm = some i) (ha : st.alarms[i]? = some a) :
    ((snooze_alarm now st).1.alarms = st.alarms ++ [snooze_alarm_record a now]) ∧
    (∀ j : Nat, j < st.alarms.length →
      (snooze_alarm now st).1.alarms[j]? = st.alarms[j]?) ∧
    ((snooze_alarm now st).1.saved =
      save_alarms (st.alarms ++ [snooze_alarm_record a now])) ∧
    (snooze_alarm_record a now).repeats = false ∧
    (snooze_alarm_record a now).active = true ∧
    (snooze_alarm_record a now).is_snooze = true ∧
    (snooze_alarm_record a now).triggered_today = false ∧
    (snooze_alarm_record a now).light_control = a.light_control ∧
    (snooze_alarm_record a now).timeHour = hourOf (now + snooze_time * 60) ∧
    (snooze_alarm_record a now).timeMinute = minuteOf (now + snooze_time * 60) := by
  obtain ⟨alarms, act, sv⟩ := st
  simp only [AppState.active_alarm] at hs
  simp only [AppState.alarms] at ha
  subst hs
  have halarms : (snooze_alarm now ⟨alarms, some i, sv⟩).1.alarms =
      alarms ++ [snooze_alarm_record a now] := by
    simp [snooze_alarm, ha]
  refine ⟨halarms, ?_, by simp [snooze_alarm, ha], rfl, rfl, rfl, rfl, rfl, rfl, rfl⟩
  intro j hj
  rw [halarms, List.getElem?_append_left hj]

/-- C10 witness: snoozing a ringing light-controlled 06:30 alarm at
06:30:10 appends exactly the 06:35 snooze record and keeps slot 0. -/
theorem c10_witness :
    ((snooze_alarm 23410
        (AppState.mk [Alarm.mk 6 30 true true true false false] (some 0) [])).1.alarms =
      [Alarm.mk 6 30 true true true false false] ++
        [snooze_alarm_record (Alarm.mk 6 30 true true true false false) 23410]) ∧
    ((snooze_alarm 23410
        (AppState.mk [Alarm.mk 6 30 true true true false false] (some 0) [])).1.alarms[0]? =
      [Alarm.mk 6 30 true true true false false][0]?) :=
  ⟨(c10_snooze_appends_only 23410
      (AppState.mk [Alarm.mk 6 30 true true true false false] (some 0) []) 0
      (Alarm.mk 6 30 true true true false false) rfl (by decide)).1,
   (c10_snooze_appends_only 23410
      (AppState.mk [Alarm.mk 6 30 true true true false false] (some 0) []) 0
      (Alarm.mk 6 30 true true true false false) rfl (by decide)).2.1 0 (by decide)⟩
